import Mathlib

/-
Verification of the bootstrap layer of `golemapp.py`.

The single source file defines a click command `start` that
  1. calls multiprocessing `freeze_support()` and `delete_reactor()`,
  2. on `--version` prints the version string and returns 0,
  3. otherwise installs `win32com.gen_py.*` placeholder module entries,
     constructs a `ClientConfigDescriptor`, loads the persisted app config
     from the data directory, overlays CLI-supplied rpc/node addresses,
  4. dispatches either to `start_crossbar_worker` (when `-m` equals the
     sentinel `crossbar.worker.process`) or to full node startup
     (logging setup, reactor install, diagnostics, `Node(...).start()`).

We embed the bootstrap as a pure function from the parsed options (and an
ambient environment: the version string and the platform name) to the list
of side effects it performs, in order, plus pure models of the helper
functions (`delete_reactor`, the argv mutation of `start_crossbar_worker`,
the `ethereum.slogging` monkey patch, and the configuration overlay).
-/

/-- Ambient process environment read by `start`: `golem.__version__`
(printed on the version branch) and `platform.system()` (read only by
`log_platform_info`). -/
structure Env where
  golemVersion : String
  platformSystem : String
  deriving DecidableEq

/-- A parsed rpc address, as produced by the `parse_rpc_address` callback:
an object with `.address` and `.port` attributes (`golemapp.py` lines
116-118 read exactly these two). -/
structure RpcAddressT where
  address : String
  port : Nat
  deriving DecidableEq

/-- The argument record the click decorators hand to `start(payments,
monitor, datadir, node_address, rpc_address, peer, start_geth,
start_geth_port, geth_address, version, m, loglevel)`.  Options that are
absent on the command line arrive as `none` (click default `None`), flags
as booleans. -/
structure ParsedOptions where
  payments : Bool
  monitor : Bool
  datadir : String
  node_address : Option String
  rpc_address : Option RpcAddressT
  peer : List String
  start_geth : Bool
  start_geth_port : Option Int
  geth_address : Option String
  version : Bool
  m : Option String
  loglevel : Option String
  deriving DecidableEq

/-- The observable side effects of the `start` body, in program order. -/
inductive Effect where
  | freezeSupport
  | deleteReactor
  | printVersion (line : String)
  | setModuleNone (name : String)
  | newConfigDescriptor
  | loadAppConfig (datadir : String)
  | initFromAppConfig
  | popWorkerArgs
  | importModule (name : String)
  | runModule (name : String)
  | configLogging (datadir : String) (loglevel : Option String)
  | installReactor
  | logGolemVersion
  | logPlatformInfo (system : String)
  | constructNode
  | nodeStart
  deriving DecidableEq

/-- The terminal action chosen by `start`. -/
inductive DispatchDecision where
  | PRINT_VERSION
  | DELEGATE_WORKER
  | START_NODE
  deriving DecidableEq

/-- Mode dispatch as the branch structure of `start` (`golemapp.py` lines
104, 122, 125): `if version: ...` then `if m == 'crossbar.worker.process':
start_crossbar_worker(m) else: ...Node(...).start()`. -/
def dispatch (version : Bool) (m : Option String) : DispatchDecision :=
  if version then .PRINT_VERSION
  else if m = some "crossbar.worker.process" then .DELEGATE_WORKER
  else .START_NODE

/-- The effect trace of the `start` body (`golemapp.py` lines 101-142),
straight-line translation: `freeze_support()`; `delete_reactor()`; the
version short-circuit; the three `sys.modules[...] = None` assignments;
`ClientConfigDescriptor()`; `AppConfig.load_config(datadir)`;
`init_from_app_config`; then either the crossbar-worker delegation or the
full node startup sequence. -/
def start_effects (env : Env) (o : ParsedOptions) : List Effect :=
  .freezeSupport :: .deleteReactor ::
  (if o.version then
    [.printVersion ("GOLEM version: " ++ env.golemVersion)]
  else
    .setModuleNone "win32com.gen_py.os" ::
    .setModuleNone "win32com.gen_py.pywintypes" ::
    .setModuleNone "win32com.gen_py.pythoncom" ::
    .newConfigDescriptor :: .loadAppConfig o.datadir :: .initFromAppConfig ::
    (if o.m = some "crossbar.worker.process" then
      [.popWorkerArgs, .importModule "crossbar.worker.process",
       .runModule "crossbar.worker.process"]
    else
      [.configLogging o.datadir o.loglevel, .installReactor,
       .logGolemVersion, .logPlatformInfo env.platformSystem,
       .constructNode, .nodeStart]))

/-- The return value of the `start` body: `return 0` on the version branch
(line 106), implicit `None` otherwise. -/
def start_return (o : ParsedOptions) : Option Nat :=
  if o.version then some 0 else none

/-- `delete_reactor` (`golemapp.py` lines 145-147): removes the key
`twisted.internet.reactor` from `sys.modules` if present.  The registry is
modelled as its list of keys. -/
def delete_reactor (modules : List String) : List String :=
  if "twisted.internet.reactor" ∈ modules then
    modules.erase "twisted.internet.reactor"
  else modules

/-- Python truthiness of an optional string (`if node_address:` is false
both for `None` and for the empty string). -/
def pyTruthyStr : Option String → Bool
  | none => false
  | some s => !s.isEmpty

/-- The configuration descriptor consumed by the node.  `rpc_address`,
`rpc_port` and `node_address` are the fields `start` overlays (lines
116-120); every other field loaded by `init_from_app_config` is modelled
by `others`. -/
structure ClientConfigDescriptor where
  rpc_address : String
  rpc_port : Nat
  node_address : String
  others : List (String × String)
  deriving DecidableEq

/-- The configuration overlay of `start` (`golemapp.py` lines 113-120):
starting from the descriptor populated by `init_from_app_config`, `if
rpc_address:` overwrite `rpc_address`/`rpc_port` from the parsed CLI
value; `if node_address:` overwrite `node_address`. -/
def resolve_config (persisted : ClientConfigDescriptor)
    (rpc_address : Option RpcAddressT) (node_address : Option String) :
    ClientConfigDescriptor :=
  let c1 := match rpc_address with
    | some r =>
        { rpc_address := r.address, rpc_port := r.port,
          node_address := persisted.node_address, others := persisted.others }
    | none => persisted
  if pyTruthyStr node_address then
    { rpc_address := c1.rpc_address, rpc_port := c1.rpc_port,
      node_address := node_address.getD "", others := c1.others }
  else c1

/-- `list.index(x)` of Python: the index of the first occurrence, `none`
when absent (Python raises `ValueError`). -/
def py_index (x : String) : List String → Option Nat
  | [] => none
  | y :: ys => if y = x then some 0 else (py_index x ys).map (· + 1)

/-- `list.pop(i)` of Python, restricted to the resulting list: defined
only for `i < length` (Python raises `IndexError` otherwise). -/
def py_pop (i : Nat) (l : List String) : Option (List String) :=
  if i < l.length then some (l.eraseIdx i) else none

/-- `list.remove(x)` of Python: removes the first occurrence. -/
def py_remove_first (x : String) : List String → List String
  | [] => []
  | y :: ys => if y = x then ys else y :: py_remove_first x ys

/-- The `sys.argv` mutation performed by `start_crossbar_worker`
(`golemapp.py` lines 151-157): `idx = sys.argv.index('-m')`;
`sys.argv.pop(idx)` twice; then `if '-u' in sys.argv:
sys.argv.remove('-u')`.  Returns `none` when Python would raise
(no `-m`, or `-m` is the last element). -/
def start_crossbar_worker_argv (argv : List String) : Option (List String) := do
  let idx ← py_index "-m" argv
  let argv1 ← py_pop idx argv
  let argv2 ← py_pop idx argv1
  pure (if "-u" ∈ argv2 then py_remove_first "-u" argv2 else argv2)

/-- The state of the `logging` module: the process-wide default logger
class (`logging.getLoggerClass` / `logging.setLoggerClass`) plus whatever
else the module holds (manager dict, handlers, ...), abstracted as
`registry`. -/
structure LoggingState (κ : Type) (ρ : Type) where
  loggerClass : κ
  registry : ρ

/-- `monkey_patched_getLogger` (`golemapp.py` lines 32-36): capture
`orig_class = logging.getLoggerClass()`, call the original
`slogging.SManager.getLogger`, restore the captured class, and return the
original result.  The original accessor is an arbitrary state transformer
on the logging state. -/
def monkey_patched_getLogger {α κ ρ : Type}
    (orig_getLogger : LoggingState κ ρ → α × LoggingState κ ρ)
    (s : LoggingState κ ρ) : α × LoggingState κ ρ :=
  let orig_class := s.loggerClass
  let result := orig_getLogger s
  (result.1, { loggerClass := orig_class, registry := result.2.registry })

/-- `PROTOCOL_CONST.patch_protocol_id`.  Modelled from the spec:
`golem.core.variables.PROTOCOL_CONST` is not under src/; per the spec the
eager `protocol_id` callback "patches a process-wide protocol-version
constant" when a value is supplied, and is a no-op when the option is
absent.  The constant is modelled as a natural number. -/
def patch_protocol_id (value : Option Nat) (protocolConst : Nat) : Nat :=
  match value with
  | some v => v
  | none => protocolConst

/-- A click option as far as processing order is concerned: its name,
whether it is declared `is_eager=True`, and its callback's effect on the
shared process state (the protocol constant). -/
structure ClickParam where
  name : String
  eager : Bool
  callback : Nat → Nat

/-- The option list of the `start` command, names and eagerness exactly as
in the click decorators (`golemapp.py` lines 43-98): only `protocol_id`
and `start_geth` are `is_eager=True`.  Per the spec only the eager
`protocol_id` callback mutates the shared constant; every other callback
is pure with respect to it. -/
def start_params (protocol_id_value : Option Nat) : List ClickParam :=
  [⟨"payments", false, id⟩,
   ⟨"monitor", false, id⟩,
   ⟨"datadir", false, id⟩,
   ⟨"protocol_id", true, patch_protocol_id protocol_id_value⟩,
   ⟨"node_address", false, id⟩,
   ⟨"rpc_address", false, id⟩,
   ⟨"peer", false, id⟩,
   ⟨"start_geth", true, id⟩,
   ⟨"start_geth_port", false, id⟩,
   ⟨"geth_address", false, id⟩,
   ⟨"version", false, id⟩,
   ⟨"m", false, id⟩,
   ⟨"node", false, id⟩,
   ⟨"klass", false, id⟩,
   ⟨"u", false, id⟩,
   ⟨"multiprocessing_fork", false, id⟩,
   ⟨"cbdir", false, id⟩,
   ⟨"worker", false, id⟩,
   ⟨"type", false, id⟩,
   ⟨"realm", false, id⟩,
   ⟨"loglevel", false, id⟩,
   ⟨"title", false, id⟩]

/-- Modelled from the spec: click resolves parameters marked eager first
(their side effects applied before any non-eager validator runs); the
relative order of the non-eager parameters may depend on the command
line, modelled by an arbitrary `reorder` function. -/
def processing_order (ps : List ClickParam)
    (reorder : List ClickParam → List ClickParam) : List ClickParam :=
  ps.filter (fun p => p.eager) ++ reorder (ps.filter (fun p => !p.eager))

/-- Runs the callbacks of `ps` in order over the shared state, pairing
each parameter with the state its callback observes. -/
def states_at : List ClickParam → Nat → List (ClickParam × Nat)
  | [], _ => []
  | p :: ps, s => (p, s) :: states_at ps (p.callback s)

/-- `argsparser.enforce_start_geth_used`.  Modelled from the spec:
`golem.argsparser` is not under src/; per the spec `start_geth_port` "is
valid only if start-geth is true; presence without start-geth is a
validation failure" (a click `UsageError`), and the port is optional. -/
def enforce_start_geth_used (start_geth : Bool) (value : Option Int) :
    Except String (Option Int) :=
  match value with
  | none => .ok none
  | some v =>
      if start_geth then .ok (some v)
      else .error "it makes sense only together with --start-geth"

/-- Modelled from the spec: click runs option validation callbacks while
parsing, before the command body executes, and a `UsageError` exits
non-zero with no body effect.  `run_start` validates the
`start_geth_port` constraint and only then yields the `start` body's
effect trace. -/
def run_start (env : Env) (o : ParsedOptions) : Except String (List Effect) :=
  match enforce_start_geth_used o.start_geth o.start_geth_port with
  | .error e => .error e
  | .ok _ => .ok (start_effects env o)

/-- A sample environment on a non-Windows host. -/
def env0 : Env := ⟨"0.1.0", "Linux"⟩

/-- A sample environment on a Windows host. -/
def envW : Env := ⟨"0.1.0", "Windows"⟩

/-- A sample invocation with `--version`. -/
def opts_version : ParsedOptions :=
  ⟨true, true, "/data", none, none, [], false, none, none, true, none, none⟩

/-- A sample invocation with `-m crossbar.worker.process`. -/
def opts_worker : ParsedOptions :=
  ⟨true, true, "/data", none, none, [], false, none, none, false,
   some "crossbar.worker.process", none⟩

/-- A sample plain invocation (full node startup). -/
def opts_node : ParsedOptions :=
  ⟨true, true, "/data", none, none, [], false, none, none, false, none, none⟩

/-- A sample invocation with `--start-geth-port` but without `--start-geth`. -/
def opts_port_nogeth : ParsedOptions :=
  ⟨true, true, "/data", none, none, [], false, some 40102, none, false, none, none⟩

/-- A sample invocation with `--start-geth` and no port. -/
def opts_geth : ParsedOptions :=
  ⟨true, true, "/data", none, none, [], true, none, none, false, none, none⟩

/-- A sample persisted configuration descriptor. -/
def persisted0 : ClientConfigDescriptor :=
  ⟨"10.0.0.1", 61000, "10.0.0.2", [("num_cores", "4")]⟩

/-- C1: mode dispatch is a pure function of the version flag and the `-m`
value: version set gives PRINT_VERSION; otherwise the sentinel
`crossbar.worker.process` gives DELEGATE_WORKER; anything else gives
START_NODE. -/
theorem dispatch_pure_cases (version : Bool) (m : Option String) :
    (version = true → dispatch version m = .PRINT_VERSION)
    ∧ (version = false → m = some "crossbar.worker.process" →
        dispatch version m = .DELEGATE_WORKER)
    ∧ (version = false → m ≠ some "crossbar.worker.process" →
        dispatch version m = .START_NODE) := by
  refine ⟨?_, ?_, ?_⟩
  · intro hv; subst hv; simp [dispatch]
  · intro hv hm; subst hv; subst hm; simp [dispatch]
  · intro hv hm; subst hv; simp [dispatch, hm]

/-- C1 witness: the three dispatch cases at concrete inputs. -/
theorem dispatch_pure_cases_witness :
    dispatch true none = .PRINT_VERSION
    ∧ dispatch false (some "crossbar.worker.process") = .DELEGATE_WORKER
    ∧ dispatch false (some "other.module") = .START_NODE :=
  ⟨(dispatch_pure_cases true none).1 rfl,
   (dispatch_pure_cases false (some "crossbar.worker.process")).2.1 rfl rfl,
   (dispatch_pure_cases false (some "other.module")).2.2 rfl (by decide)⟩

/-- C3: with the version flag set, `start` prints the version line,
returns 0, and performs no configuration load, no node construction and
no diagnostics logging. -/
theorem version_branch_short_circuit (env : Env) (o : ParsedOptions)
    (h : o.version = true) :
    start_effects env o =
      [.freezeSupport, .deleteReactor,
       .printVersion ("GOLEM version: " ++ env.golemVersion)]
    ∧ start_return o = some 0
    ∧ (∀ d, Effect.loadAppConfig d ∉ start_effects env o)
    ∧ Effect.newConfigDescriptor ∉ start_effects env o
    ∧ Effect.constructNode ∉ start_effects env o
    ∧ Effect.nodeStart ∉ start_effects env o
    ∧ Effect.logGolemVersion ∉ start_effects env o
    ∧ (∀ s, Effect.logPlatformInfo s ∉ start_effects env o)
    ∧ (∀ d l, Effect.configLogging d l ∉ start_effects env o) := by
  simp [start_effects, start_return, h]

/-- C3 witness: the version branch at a concrete invocation. -/
theorem version_branch_short_circuit_witness :
    start_effects env0 opts_version =
      [.freezeSupport, .deleteReactor,
       .printVersion ("GOLEM version: " ++ env0.golemVersion)]
    ∧ start_return opts_version = some 0 := by
  have h := version_branch_short_circuit env0 opts_version rfl
  exact ⟨h.1, h.2.1⟩

/-- C7: the monkey-patched `getLogger` returns exactly what the original
accessor returns, and restores the default logger class captured before
the call, on every call; the rest of the logging state is whatever the
original accessor left. -/
theorem logger_class_guard {α κ ρ : Type}
    (orig_getLogger : LoggingState κ ρ → α × LoggingState κ ρ)
    (s : LoggingState κ ρ) :
    (monkey_patched_getLogger orig_getLogger s).1 = (orig_getLogger s).1
    ∧ (monkey_patched_getLogger orig_getLogger s).2.loggerClass
        = s.loggerClass
    ∧ (monkey_patched_getLogger orig_getLogger s).2.registry
        = (orig_getLogger s).2.registry :=
  ⟨rfl, rfl, rfl⟩

/-- C10: on every invocation, whatever the branch, the first two effects
of `start` are `freeze_support()` and `delete_reactor()`; and
`delete_reactor` removes exactly the `twisted.internet.reactor` entry
from the module registry, leaving every other entry. -/
theorem pre_dispatch_side_effects (env : Env) (o : ParsedOptions)
    (modules : List String) (hnd : modules.Nodup) :
    (start_effects env o).take 2 = [.freezeSupport, .deleteReactor]
    ∧ "twisted.internet.reactor" ∉ delete_reactor modules
    ∧ (∀ name, name ≠ "twisted.internet.reactor" →
        (name ∈ delete_reactor modules ↔ name ∈ modules)) := by
  refine ⟨by simp [start_effects], ?_, ?_⟩
  · unfold delete_reactor
    by_cases h : "twisted.internet.reactor" ∈ modules
    · rw [if_pos h]
      intro hmem
      exact ((List.Nodup.mem_erase_iff hnd).mp hmem).1 rfl
    · rw [if_neg h]; exact h
  · intro name hne
    unfold delete_reactor
    by_cases h : "twisted.internet.reactor" ∈ modules
    · rw [if_pos h]; exact List.mem_erase_of_ne hne
    · rw [if_neg h]

/-- C10 witness: a concrete invocation and a concrete module registry
containing the reactor entry. -/
theorem pre_dispatch_side_effects_witness :
    (start_effects env0 opts_node).take 2 = [.freezeSupport, .deleteReactor]
    ∧ "twisted.internet.reactor" ∉
        delete_reactor ["twisted.internet.reactor", "os"] := by
  have h := pre_dispatch_side_effects env0 opts_node
    ["twisted.internet.reactor", "os"] (by decide)
  exact ⟨h.1, h.2.1⟩

/-- C2 counterexample: on the worker-delegate branch (version unset, `-m`
equal to the sentinel) the bootstrap DOES construct a
`ClientConfigDescriptor` and DOES load the persisted configuration store:
lines 113-114 of `golemapp.py` run before the branch test at line 122. -/
theorem worker_branch_config_counterexample :
    Effect.newConfigDescriptor ∈ start_effects env0 opts_worker
    ∧ Effect.loadAppConfig "/data" ∈ start_effects env0 opts_worker := by
  decide

/-- C2 amended: on the worker-delegate branch the trace is exactly the
pre-branch effects (freeze support, reactor removal, module shims,
descriptor construction and config load) followed by the argv mutation
and the dynamic import and run of the sentinel module; it contains no
node construction, no reactor install, no logging setup and no
diagnostics. -/
theorem worker_branch_effects (env : Env) (o : ParsedOptions)
    (hv : o.version = false) (hm : o.m = some "crossbar.worker.process") :
    start_effects env o =
      [.freezeSupport, .deleteReactor,
       .setModuleNone "win32com.gen_py.os",
       .setModuleNone "win32com.gen_py.pywintypes",
       .setModuleNone "win32com.gen_py.pythoncom",
       .newConfigDescriptor, .loadAppConfig o.datadir, .initFromAppConfig,
       .popWorkerArgs, .importModule "crossbar.worker.process",
       .runModule "crossbar.worker.process"]
    ∧ Effect.constructNode ∉ start_effects env o
    ∧ Effect.nodeStart ∉ start_effects env o
    ∧ Effect.installReactor ∉ start_effects env o
    ∧ Effect.logGolemVersion ∉ start_effects env o
    ∧ (∀ s, Effect.logPlatformInfo s ∉ start_effects env o)
    ∧ (∀ d l, Effect.configLogging d l ∉ start_effects env o) := by
  simp [start_effects, hv, hm]

/-- C2 amended witness: the worker branch at a concrete invocation. -/
theorem worker_branch_effects_witness :
    Effect.runModule "crossbar.worker.process" ∈ start_effects env0 opts_worker
    ∧ Effect.constructNode ∉ start_effects env0 opts_worker := by
  have h := worker_branch_effects env0 opts_worker rfl rfl
  exact ⟨by rw [h.1]; decide, h.2.1⟩

/-- C6 counterexample: the `win32com.gen_py.*` placeholder registration is
not gated on the platform: it appears in the trace both on a Linux host
(where the pyinstaller packaging step does not apply) and on a Windows
host (where the real modules exist); lines 109-111 of `golemapp.py` are
unconditional. -/
theorem shim_platform_counterexample :
    Effect.setModuleNone "win32com.gen_py.os" ∈ start_effects env0 opts_node
    ∧ Effect.setModuleNone "win32com.gen_py.os" ∈ start_effects envW opts_node := by
  decide

/-- C6 amended: the environment shim registers the three placeholder
module entries on every invocation that is not the version branch,
unconditionally, on every platform (the code contains no platform
gate). -/
theorem shim_unconditional (env : Env) (o : ParsedOptions)
    (hv : o.version = false) :
    Effect.setModuleNone "win32com.gen_py.os" ∈ start_effects env o
    ∧ Effect.setModuleNone "win32com.gen_py.pywintypes" ∈ start_effects env o
    ∧ Effect.setModuleNone "win32com.gen_py.pythoncom" ∈ start_effects env o := by
  refine ⟨?_, ?_, ?_⟩ <;> simp [start_effects, hv]

/-- C6 amended witness: the shim effects on a concrete non-version
invocation on a Linux host. -/
theorem shim_unconditional_witness :
    Effect.setModuleNone "win32com.gen_py.pythoncom" ∈ start_effects env0 opts_node :=
  (shim_unconditional env0 opts_node rfl).2.2

/-- C4: the configuration overlay: a present CLI rpc address overwrites
the persisted rpc address and port, a present (non-empty) CLI node
address overwrites the persisted node address; an absent (None or empty)
CLI value leaves the persisted value unchanged; all other descriptor
fields flow from the persisted store unmodified. -/
theorem config_overlay (persisted : ClientConfigDescriptor)
    (rpc : Option RpcAddressT) (node_addr : Option String) :
    ((∀ r, rpc = some r →
        (resolve_config persisted rpc node_addr).rpc_address = r.address
        ∧ (resolve_config persisted rpc node_addr).rpc_port = r.port)
    ∧ (rpc = none →
        (resolve_config persisted rpc node_addr).rpc_address
            = persisted.rpc_address
        ∧ (resolve_config persisted rpc node_addr).rpc_port
            = persisted.rpc_port))
    ∧ ((∀ a, node_addr = some a → a ≠ "" →
        (resolve_config persisted rpc node_addr).node_address = a)
    ∧ (pyTruthyStr node_addr = false →
        (resolve_config persisted rpc node_addr).node_address
            = persisted.node_address))
    ∧ (resolve_config persisted rpc node_addr).others = persisted.others := by
  have hem : ("" : String).isEmpty = true := by decide
  rcases rpc with _ | r <;> rcases node_addr with _ | a
  · simp [resolve_config, pyTruthyStr]
  · by_cases he : a = ""
    · subst he; simp [resolve_config, pyTruthyStr, hem]
    · have hne : a.isEmpty = false := by
        rw [Bool.eq_false_iff]
        intro hb
        exact he ((String.isEmpty_iff a).mp hb)
      simp [resolve_config, pyTruthyStr, hne]
  · simp [resolve_config, pyTruthyStr]
  · by_cases he : a = ""
    · subst he; simp [resolve_config, pyTruthyStr, hem]
    · have hne : a.isEmpty = false := by
        rw [Bool.eq_false_iff]
        intro hb
        exact he ((String.isEmpty_iff a).mp hb)
      simp [resolve_config, pyTruthyStr, hne]

/-- C4 witness: a persisted descriptor, a CLI rpc address and a CLI node
address. -/
theorem config_overlay_witness :
    (resolve_config persisted0 (some ⟨"127.0.0.1", 61001⟩)
        (some "1.2.3.4")).rpc_address = "127.0.0.1"
    ∧ (resolve_config persisted0 (some ⟨"127.0.0.1", 61001⟩)
        (some "1.2.3.4")).rpc_port = 61001
    ∧ (resolve_config persisted0 (some ⟨"127.0.0.1", 61001⟩)
        (some "1.2.3.4")).node_address = "1.2.3.4"
    ∧ (resolve_config persisted0 (some ⟨"127.0.0.1", 61001⟩)
        (some "1.2.3.4")).others = persisted0.others := by
  have h := config_overlay persisted0 (some ⟨"127.0.0.1", 61001⟩)
    (some "1.2.3.4")
  exact ⟨(h.1.1 _ rfl).1, (h.1.1 _ rfl).2, h.2.1.1 _ rfl (by decide), h.2.2⟩

/-- `py_index` finds the first occurrence: on `pre ++ x :: rest` with `x`
not in `pre` it returns `pre.length`. -/
theorem py_index_eq_of_not_mem (pre rest : List String)
    (h : "-m" ∉ pre) :
    py_index "-m" (pre ++ "-m" :: rest) = some pre.length := by
  induction pre with
  | nil => simp [py_index]
  | cons y ys ih =>
      have hy : ¬(y = "-m") := by
        intro hy
        exact h (hy ▸ List.mem_cons_self y ys)
      have hys : "-m" ∉ ys := fun hmem => h (List.mem_cons_of_mem y hmem)
      simp only [List.cons_append, py_index, if_neg hy, List.append_eq, ih hys]
      rfl

/-- Removing the element at the junction index of an appended list. -/
theorem eraseIdx_append_length (pre : List String) (x : String)
    (rest : List String) :
    (pre ++ x :: rest).eraseIdx pre.length = pre ++ rest := by
  induction pre with
  | nil => rfl
  | cons y ys ih => simpa [List.eraseIdx] using ih

/-- `py_remove_first` yields a sublist: relative order is preserved. -/
theorem py_remove_first_sublist (x : String) (l : List String) :
    List.Sublist (py_remove_first x l) l := by
  induction l with
  | nil => exact List.Sublist.refl []
  | cons y ys ih =>
      by_cases h : y = x
      · rw [py_remove_first, if_pos h]
        exact List.Sublist.cons y (List.Sublist.refl ys)
      · rw [py_remove_first, if_neg h]
        exact List.Sublist.cons₂ y ih

/-- `py_remove_first` is the identity when the element is absent. -/
theorem py_remove_first_of_not_mem (x : String) (l : List String)
    (h : x ∉ l) :
    py_remove_first x l = l := by
  induction l with
  | nil => rfl
  | cons y ys ih =>
      have hy : ¬(y = x) := by
        intro hy
        exact h (hy ▸ List.mem_cons_self y ys)
      have hys : x ∉ ys := fun hmem => h (List.mem_cons_of_mem y hmem)
      rw [py_remove_first, if_neg hy, ih hys]

/-- C5: for every argv of the form `pre ++ [-m, value] ++ post` with no
earlier `-m`, the crossbar argv mutation removes the `-m` flag and its
value and the first `-u` if present, and the result is a sublist of the
remaining arguments: unrelated arguments keep their original relative
order. -/
theorem crossbar_argv_mutation (pre post : List String) (v : String)
    (hm : "-m" ∉ pre) :
    start_crossbar_worker_argv (pre ++ "-m" :: v :: post) =
      some (py_remove_first "-u" (pre ++ post))
    ∧ List.Sublist (py_remove_first "-u" (pre ++ post)) (pre ++ post) := by
  refine ⟨?_, py_remove_first_sublist _ _⟩
  have hidx := py_index_eq_of_not_mem pre (v :: post) hm
  have h1 : py_pop pre.length (pre ++ "-m" :: v :: post)
      = some (pre ++ v :: post) := by
    have hlt : pre.length < (pre ++ "-m" :: v :: post).length := by
      simp
    rw [py_pop, if_pos hlt, eraseIdx_append_length]
  have h2 : py_pop pre.length (pre ++ v :: post) = some (pre ++ post) := by
    have hlt : pre.length < (pre ++ v :: post).length := by
      simp
    rw [py_pop, if_pos hlt, eraseIdx_append_length]
  by_cases hu : "-u" ∈ pre ++ post
  · simp [start_crossbar_worker_argv, hidx, h1, h2, hu]
  · simp [start_crossbar_worker_argv, hidx, h1, h2, hu,
      py_remove_first_of_not_mem _ _ hu]

/-- C5 witness: the argv `[-m, worker.module, -u, extra]` mutates to
`[extra]`. -/
theorem crossbar_argv_mutation_witness :
    start_crossbar_worker_argv ["-m", "worker.module", "-u", "extra"]
      = some ["extra"] := by
  have h := crossbar_argv_mutation [] ["-u", "extra"] "worker.module"
    (by decide)
  simpa [py_remove_first] using h.1

/-- `states_at` splits over append: the second segment starts from the
fold of the first segment's callbacks. -/
theorem states_at_append (l1 l2 : List ClickParam) (s : Nat) :
    states_at (l1 ++ l2) s =
      states_at l1 s ++
        states_at l2 (l1.foldl (fun t p => p.callback t) s) := by
  induction l1 generalizing s with
  | nil => rfl
  | cons p ps ih => simp [states_at, ih, List.foldl]

/-- If every callback in the list fixes the state `s`, every parameter in
the list observes exactly `s`. -/
theorem states_at_fixed (l : List ClickParam) (s : Nat)
    (h : ∀ p ∈ l, p.callback s = s) :
    ∀ pr ∈ states_at l s, pr.2 = s := by
  induction l with
  | nil => intro pr hpr; cases hpr
  | cons p ps ih =>
      intro pr hpr
      rcases List.mem_cons.mp hpr with hpr | hpr
      · rw [hpr]
      · have hc : p.callback s = s := h p (List.mem_cons_self p ps)
        rw [hc] at hpr
        exact ih (fun q hq => h q (List.mem_cons_of_mem p hq)) pr hpr

/-- Every non-eager parameter of the `start` command has a callback that
is pure with respect to the protocol constant. -/
theorem start_params_non_eager_id (pid : Option Nat) :
    ∀ p ∈ (start_params pid).filter (fun p => !p.eager),
      p.callback = id := by
  intro p hp
  fin_cases hp <;> rfl

/-- C8: in every processing order click may produce (eager parameters
first, non-eager parameters in any command-line-dependent order), each
non-eager parameter's validator observes the protocol constant with the
eager `protocol_id` patch already applied. -/
theorem protocol_id_side_effect_first (pid : Option Nat) (s0 : Nat)
    (reorder : List ClickParam → List ClickParam)
    (hre : ∀ l : List ClickParam, ∀ p ∈ reorder l, p ∈ l) :
    ∀ pr ∈ states_at (processing_order (start_params pid) reorder) s0,
      pr.1.eager = false → pr.2 = patch_protocol_id pid s0 := by
  intro pr hpr hne
  have hfe : (start_params pid).filter (fun p => p.eager) =
      [⟨"protocol_id", true, patch_protocol_id pid⟩,
       ⟨"start_geth", true, id⟩] := rfl
  rw [processing_order, hfe, states_at_append] at hpr
  rcases List.mem_append.mp hpr with h | h
  · rcases List.mem_cons.mp h with h | h
    · rw [h] at hne; cases hne
    · rcases List.mem_cons.mp h with h | h
      · rw [h] at hne; cases hne
      · cases h
  · have hs1 : List.foldl (fun t p => p.callback t) s0
        [(⟨"protocol_id", true, patch_protocol_id pid⟩ : ClickParam),
         ⟨"start_geth", true, id⟩] = patch_protocol_id pid s0 := rfl
    rw [hs1] at h
    refine states_at_fixed _ _ ?_ pr h
    intro q hq
    rw [start_params_non_eager_id pid q (hre _ q hq)]
    rfl

/-- C8 witness: with the identity reordering, protocol id 7 and initial
constant 0, the non-eager `rpc_address` parameter observes the patched
constant 7. -/
theorem protocol_id_side_effect_first_witness :
    (((⟨"rpc_address", false, id⟩ : ClickParam), (7 : Nat))).2
      = patch_protocol_id (some 7) 0 := by
  refine protocol_id_side_effect_first (some 7) 0 (fun l => l)
    (fun _ _ h => h)
    ((⟨"rpc_address", false, id⟩ : ClickParam), (7 : Nat)) ?_ rfl
  show _ ∈ states_at (processing_order (start_params (some 7)) (fun l => l)) 0
  repeat first
    | exact List.Mem.head _
    | apply List.Mem.tail

/-- C9: supplying `start_geth_port` without `start_geth` fails validation
with the usage error, producing no effect trace at all; supplying
`start_geth` with no port passes validation and yields the `start` body's
trace. -/
theorem start_geth_port_validation (env : Env) (o : ParsedOptions) :
    (o.start_geth = false → ∀ p, o.start_geth_port = some p →
        run_start env o =
          .error "it makes sense only together with --start-geth")
    ∧ (o.start_geth = true → o.start_geth_port = none →
        run_start env o = .ok (start_effects env o)) := by
  constructor
  · intro hg p hp
    simp [run_start, enforce_start_geth_used, hg, hp]
  · intro hg hp
    simp [run_start, enforce_start_geth_used, hg, hp]

/-- C9 witness: the two validation outcomes at concrete invocations. -/
theorem start_geth_port_validation_witness :
    run_start env0 opts_port_nogeth =
      .error "it makes sense only together with --start-geth"
    ∧ run_start env0 opts_geth = .ok (start_effects env0 opts_geth) :=
  ⟨(start_geth_port_validation env0 opts_port_nogeth).1 rfl 40102 rfl,
   (start_geth_port_validation env0 opts_geth).2 rfl rfl⟩
